import Mathlib

/-!
Verification development for the drawio Sphinx extension
(`sphinxcontrib/drawio.py`).  The Python source is shallowly embedded:
pure computations become Lean functions, filesystem state and the
external renderer process become explicit function parameters, and the
fallible export routine returns an `Except` value together with the
list of external commands it spawned.  Machine integers are modelled
as `Nat`/`Int`; the SHA-1 digest is an external cryptographic
primitive and is passed in as an abstract function `String → String`.
-/

namespace DrawioSpec

/-! ### Decimal rendering of natural numbers

`str(n)` in Python renders a non-negative integer in decimal.  The
embedding uses Lean's `Nat.repr`, and this section characterises it as
the big-endian list of decimal digit characters, which yields
injectivity and the character-level facts the cache-key theorems need.
-/

/-- Big-endian decimal character list of `n`, with at least one digit. -/
def decChars (n : Nat) : List Char :=
  if n = 0 then ['0'] else ((Nat.digits 10 n).map Nat.digitChar).reverse

/-- The ten decimal digit characters. -/
def digitCharset : List Char := ['0', '1', '2', '3', '4', '5', '6', '7', '8', '9']

/-- Character-level model of joining a list of strings with a one-character
separator, as Python's `sep.join(fields)` does. -/
def joinSep (c : Char) : List (List Char) → List Char
  | [] => []
  | [x] => x
  | x :: y :: xs => x ++ c :: joinSep c (y :: xs)

/-! ### Python string renderings used by the cache key -/

/-- Embeds `str(value / 100)` for a non-negative integer `value`: the exact
decimal rendering of `value / 100`, matching Python's shortest round-trip
float repr for all realistic magnitudes (an integer quotient keeps a
trailing `.0`, fractional parts drop trailing zeros). -/
def fracStr (r : Nat) : String :=
  if r = 0 then "0"
  else if r % 10 = 0 then Nat.repr (r / 10)
  else if r < 10 then "0" ++ Nat.repr r
  else Nat.repr r

/-- The decimal string Python produces for `export_scale / 100`. -/
def scaleStr (n : Nat) : String :=
  Nat.repr (n / 100) ++ "." ++ fracStr (n % 100)

/-- Embeds `str(options.get(key))` for an optional positive-integer option:
`None` renders as the literal string `"None"`, an integer in decimal. -/
def pyStrOptNat : Option Nat → String
  | none => "None"
  | some n => Nat.repr n

/-- Embeds `"true" if transparent else "false"` (line 154 of the source). -/
def boolStr (b : Bool) : String :=
  if b then "true" else "false"

/-- Embeds `str(input_relpath)` for a relative `pathlib` path given by its
components: components joined by `/`; the empty relative path renders `.`. -/
def relPathStr (p : List String) : String :=
  if p = [] then "." else String.intercalate "/" p

/-! ### Data model of the extension

Embeds the configuration values registered in `setup`, the per-directive
options dictionary, and path/process/environment state as explicit
parameters. -/

/-- Value of the `drawio_headless` config option: `"auto"`, `True` or
`False` (Sphinx validates it against this enumeration). -/
inductive HeadlessConfig
  | auto
  | fixed (b : Bool)
  deriving DecidableEq, Repr

/-- Builder-level configuration consumed by `drawio_export` and
`is_headless`, with the defaults registered in `setup`. -/
structure DrawioConfig where
  drawio_default_export_scale : Nat := 100
  drawio_default_transparency : Bool := false
  drawio_binary_path : Option String := none
  drawio_headless : HeadlessConfig := .auto
  drawio_no_sandbox : Bool := false
  deriving DecidableEq, Repr

/-- The per-directive `options` dict passed to `drawio_export`: each key
present or absent.  `page-index` is a non-negative integer, the scale and
dimension options are positive integers, `format` is one of the valid
output formats. -/
structure DrawioOptions where
  page_index : Option Nat := none
  format : Option String := none
  transparency : Option Bool := none
  export_scale : Option Nat := none
  export_width : Option Nat := none
  export_height : Option Nat := none
  deriving DecidableEq, Repr

/-- Python truthiness of an optional string: `None` and `""` are falsy. -/
def strTruthy : Option String → Bool
  | none => false
  | some s => !s.isEmpty

/-- Embeds `is_headless` (source lines 32-47).  Under `"auto"`: `False`
unless the platform is Linux, then `False` when `os.getenv("DISPLAY")` is
truthy, else `True`.  An explicit boolean config value is returned as is. -/
def is_headless (drawio_headless : HeadlessConfig) (platformSystem : String)
    (display : Option String) : Bool :=
  match drawio_headless with
  | .auto =>
    if platformSystem ≠ "Linux" then false
    else if strTruthy display then false
    else true
  | .fixed b => b

/-- Paths are modelled by their `pathlib` component lists. -/
abbrev PyPath := List String

/-- Embeds `str(path)` with POSIX rendering: components joined by `/`. -/
def pathStr (p : PyPath) : String := String.intercalate "/" p

/-- Embeds `Path.relative_to` (line 144): the suffix of the components
when `base`'s components are a prefix, otherwise the `ValueError` case. -/
def relative_to (p base : PyPath) : Option PyPath :=
  if base.isPrefixOf p then some (p.drop base.length) else none

/-- Final path component (`PurePath.name`). -/
def pathName (p : PyPath) : String := p.getLastD ""

/-- Embeds `PurePath.stem`: the suffix is the final name from its last
dot, provided that dot is neither the first nor the last character of the
name; the stem is the name with the suffix removed. -/
def nameStem (name : String) : String :=
  match name.data.reverse.findIdx? (fun ch => ch == '.') with
  | none => name
  | some j =>
    let i := name.data.length - 1 - j
    if 0 < i ∧ i < name.data.length - 1 then ⟨name.data.take i⟩ else name

/-- Embeds `Path(name).with_suffix(suffix)`: the name with its current
suffix (if any) replaced by `suffix`. -/
def withSuffix (name suffix : String) : String :=
  nameStem name ++ suffix

/-- Outcome of `subprocess.run` on the renderer command line. -/
inductive ProcResult
  | oserror (exc : String)
  | exited (code : Nat) (stdout stderr : String)
  deriving DecidableEq, Repr

/-- The exceptions `drawio_export` can raise, one constructor per `raise`
site, each carrying the formatted message.  In the specification's
taxonomy: `relativeToValueError` is the `InvalidRequest` rejection of a
source path outside the source root, `launchOSError` is
`RendererLaunchFailure`, `calledProcessError` is
`RendererExecutionFailure`, and `outputMissing` is `OutputMissing`.
`statOSError` models the uncaught `OSError` when the source file vanishes
between the existence check in the directive and the stat call. -/
inductive ExportError
  | relativeToValueError (msg : String)
  | statOSError
  | launchOSError (msg : String)
  | calledProcessError (msg : String)
  | outputMissing (msg : String)
  deriving DecidableEq, Repr

/-! ### The pieces of `drawio_export` (source lines 131-229) -/

/-- Embeds `page_index = str(options.get("page-index", 0))` (line 135). -/
def pageIndexStr (options : DrawioOptions) : String :=
  Nat.repr (options.page_index.getD 0)

/-- Embeds `output_format = options.get("format") or default_output_format`
(line 136), with Python `or` falling through on a falsy (empty) string. -/
def outputFormat (options : DrawioOptions) (default_output_format : String) : String :=
  match options.format with
  | some f => if f.isEmpty then default_output_format else f
  | none => default_output_format

/-- The effective integer export scale
`options.get("export-scale", builder.config.drawio_default_export_scale)`
(lines 137-138), before division by 100. -/
def exportScale (options : DrawioOptions) (config : DrawioConfig) : Nat :=
  options.export_scale.getD config.drawio_default_export_scale

/-- The effective transparency
`options.get("transparency", builder.config.drawio_default_transparency)`
(lines 139-140). -/
def transparentOf (options : DrawioOptions) (config : DrawioConfig) : Bool :=
  options.transparency.getD config.drawio_default_transparency

/-- Embeds `unique_values` (lines 148-156): the ordered tuple of strings
fed to the hash — relative path, page index, scale, transparency, then
`str(options.get(o))` for the optional height and width in the iteration
order of `OPTIONAL_UNIQUES`. -/
def unique_values (input_relpath : PyPath) (options : DrawioOptions)
    (config : DrawioConfig) : List String :=
  [relPathStr input_relpath,
   pageIndexStr options,
   scaleStr (exportScale options config),
   boolStr (transparentOf options config),
   pyStrOptNat options.export_height,
   pyStrOptNat options.export_width]

/-- Embeds `hash_key = "\n".join(unique_values)` (line 157). -/
def hash_key (input_relpath : PyPath) (options : DrawioOptions)
    (config : DrawioConfig) : String :=
  String.intercalate "\n" (unique_values input_relpath options config)

/-- Embeds `sha_key = sha1(hash_key.encode()).hexdigest()` (line 158);
the SHA-1 primitive is abstract. -/
def sha_key (sha1hex : String → String) (input_relpath : PyPath)
    (options : DrawioOptions) (config : DrawioConfig) : String :=
  sha1hex (hash_key input_relpath options config)

/-- Embeds `export_dir = Path(builder.srcdir) / ".drawio" / sha_key`
(line 159). -/
def export_dir (sha1hex : String → String) (srcdir input_relpath : PyPath)
    (options : DrawioOptions) (config : DrawioConfig) : PyPath :=
  srcdir ++ [".drawio", sha_key sha1hex input_relpath options config]

/-- Embeds `filename = Path(input_stem).with_suffix('.' + output_format)`
(line 161), where `input_stem = input_abspath.stem` (line 145). -/
def export_filename (in_filename : PyPath) (output_format : String) : String :=
  withSuffix (nameStem (pathName in_filename)) ("." ++ output_format)

/-- Embeds `export_path = export_dir / filename` (line 162). -/
def export_path (sha1hex : String → String) (srcdir input_relpath in_filename : PyPath)
    (options : DrawioOptions) (config : DrawioConfig)
    (default_output_format : String) : PyPath :=
  export_dir sha1hex srcdir input_relpath options config
    ++ [export_filename in_filename (outputFormat options default_output_format)]

/-- Embeds the binary resolution (lines 169-174): the configured path when
truthy, else a platform-dependent default. -/
def binary_path (config : DrawioConfig) (platformSystem : String) : String :=
  if strTruthy config.drawio_binary_path then config.drawio_binary_path.getD ""
  else if platformSystem = "Windows" then "C:\\Program Files\\draw.io\\draw.io.exe"
  else "/opt/draw.io/drawio"

/-- Embeds `scale_args` (lines 176-179): cleared when the output format is
`pdf` and `float(scale) == 1.0`; since `scale` is the exact decimal
rendering of `export_scale / 100`, that float comparison holds exactly
when the effective integer scale is 100. -/
def scale_args (options : DrawioOptions) (config : DrawioConfig)
    (output_format : String) : List String :=
  if output_format = "pdf" ∧ exportScale options config = 100 then []
  else ["--scale", scaleStr (exportScale options config)]

/-- Embeds `extra_args` (lines 181-189): `--height`/`--width` with their
values for the options present (in `OPTIONAL_UNIQUES` iteration order),
then `--transparent` when transparency is on. -/
def extra_args (options : DrawioOptions) (config : DrawioConfig) : List String :=
  (match options.export_height with
   | some v => ["--height", Nat.repr v]
   | none => []) ++
  (match options.export_width with
   | some v => ["--width", Nat.repr v]
   | none => []) ++
  (if transparentOf options config then ["--transparent"] else [])

/-- Embeds `drawio_args` (lines 191-208), including the trailing
`--no-sandbox` when configured. -/
def drawio_args (sha1hex : String → String) (platformSystem : String)
    (srcdir input_relpath in_filename : PyPath) (options : DrawioOptions)
    (config : DrawioConfig) (default_output_format : String) : List String :=
  [binary_path config platformSystem, "--export", "--crop", "--page-index",
   pageIndexStr options]
  ++ scale_args options config (outputFormat options default_output_format)
  ++ extra_args options config
  ++ ["--format", outputFormat options default_output_format, "--output",
      pathStr (export_path sha1hex srcdir input_relpath in_filename options config
        default_output_format),
      pathStr in_filename]
  ++ (if config.drawio_no_sandbox then ["--no-sandbox"] else [])

/-- A process environment: key to optional value. -/
abbrev Env := String → Option String

/-- Embeds `new_env` (lines 210-212): a copy of `os.environ`, with
`DISPLAY` set to `":1"` (`X_DISPLAY_NUMBER = 1`) when headless. -/
def new_env (config : DrawioConfig) (platformSystem : String)
    (display : Option String) (environ : Env) : Env :=
  if is_headless config.drawio_headless platformSystem display then
    fun k => if k = "DISPLAY" then some ":1" else environ k
  else environ

/-- Result of `drawio_export`: the exception raised or the returned path,
paired with the list of external command lines spawned. -/
structure ExportOutcome where
  result : Except ExportError PyPath
  spawned : List (List String)
  deriving Repr

/-- The rendering step of `drawio_export` (lines 169-229): build the
argument vector, execute the renderer synchronously with captured output,
and classify the outcome — `OSError` on launch, `CalledProcessError` on a
non-zero exit (`check=True`), the output-missing error when a zero-exit
run produced no file, and the export path on success. -/
def render_step (sha1hex : String → String) (platformSystem : String)
    (display : Option String) (environ : Env)
    (run : List String → Env → ProcResult) (existsAfter : PyPath → Bool)
    (config : DrawioConfig) (options : DrawioOptions)
    (srcdir input_relpath in_filename : PyPath)
    (default_output_format : String) : ExportOutcome :=
  match run (drawio_args sha1hex platformSystem srcdir input_relpath in_filename
      options config default_output_format)
      (new_env config platformSystem display environ) with
  | .oserror exc =>
    { result := .error (.launchOSError
        ("draw.io ("
          ++ String.intercalate " " (drawio_args sha1hex platformSystem srcdir
              input_relpath in_filename options config default_output_format)
          ++ ") exited with error:\n" ++ exc)),
      spawned := [drawio_args sha1hex platformSystem srcdir input_relpath
        in_filename options config default_output_format] }
  | .exited code stdout stderr =>
    if code = 0 then
      if existsAfter (export_path sha1hex srcdir input_relpath in_filename
          options config default_output_format) then
        { result := .ok (export_path sha1hex srcdir input_relpath in_filename
            options config default_output_format),
          spawned := [drawio_args sha1hex platformSystem srcdir input_relpath
            in_filename options config default_output_format] }
      else
        { result := .error (.outputMissing
            ("draw.io did not produce an output file:\n[stderr]\n" ++ stderr
              ++ "\n[stdout]\n" ++ stdout)),
          spawned := [drawio_args sha1hex platformSystem srcdir input_relpath
            in_filename options config default_output_format] }
    else
      { result := .error (.calledProcessError
          ("draw.io ("
            ++ String.intercalate " " (drawio_args sha1hex platformSystem srcdir
                input_relpath in_filename options config default_output_format)
            ++ ") exited with error:\n[stderr]\n" ++ stderr
            ++ "\n[stdout]\n" ++ stdout)),
        spawned := [drawio_args sha1hex platformSystem srcdir input_relpath
          in_filename options config default_output_format] }

/-- Shallow embedding of `drawio_export` (source lines 131-229).  The
filesystem is the `stat` map (`None` for a missing file), `run` executes
an external command in an environment, and `existsAfter` is the
filesystem state after the renderer ran. -/
def drawio_export (sha1hex : String → String) (platformSystem : String)
    (display : Option String) (environ : Env)
    (stat : PyPath → Option Int) (run : List String → Env → ProcResult)
    (existsAfter : PyPath → Bool)
    (config : DrawioConfig) (options : DrawioOptions)
    (srcdir in_filename : PyPath) (default_output_format : String) :
    ExportOutcome :=
  match relative_to in_filename srcdir with
  | none =>
    { result := .error (.relativeToValueError
        ("'" ++ pathStr in_filename ++ "' is not in the subpath of '"
          ++ pathStr srcdir
          ++ "' OR one path is relative and the other is absolute.")),
      spawned := [] }
  | some input_relpath =>
    match stat (export_path sha1hex srcdir input_relpath in_filename options config
        default_output_format) with
    | some artifact_mtime =>
      match stat in_filename with
      | none => { result := .error .statOSError, spawned := [] }
      | some source_mtime =>
        if artifact_mtime > source_mtime then
          { result := .ok (export_path sha1hex srcdir input_relpath in_filename
              options config default_output_format),
            spawned := [] }
        else
          render_step sha1hex platformSystem display environ run existsAfter
            config options srcdir input_relpath in_filename default_output_format
    | none =>
      render_step sha1hex platformSystem display environ run existsAfter
        config options srcdir input_relpath in_filename default_output_format

/-- Embeds the headless branch of `on_config_inited` (lines 232-243): the
Xvfb command spawned when headless, nothing otherwise. -/
def on_config_inited_spawn (config : DrawioConfig) (platformSystem : String)
    (display : Option String) : Option (List String) :=
  if is_headless config.drawio_headless platformSystem display then
    some ["Xvfb", ":1", "-screen", "0", "1280x768x16"]
  else none

/-- The substring `sub` occurs contiguously inside `msg`. -/
def containsStr (msg sub : String) : Prop := sub.data <:+: msg.data

theorem toDigitsCore_eq_decChars :
    ∀ (n f : Nat) (l : List Char), n < f →
      Nat.toDigitsCore 10 f n l = decChars n ++ l := by
  intro n
  induction n using Nat.strong_induction_on with
  | _ n ih =>
    intro f l hf
    match f with
    | 0 => exact absurd hf (Nat.not_lt_zero n)
    | f + 1 =>
      rw [Nat.toDigitsCore]
      by_cases h10 : n / 10 = 0
      · simp only [h10, if_pos]
        by_cases h0 : n = 0
        · subst h0
          simp [decChars, Nat.digitChar]
        · have hn10 : n < 10 := (Nat.div_eq_zero_iff (by norm_num)).mp h10
          have hd : Nat.digits 10 n = [n % 10] := by
            rw [Nat.digits_def' (by norm_num : 1 < 10) (Nat.pos_of_ne_zero h0),
                h10, Nat.digits_zero]
          unfold decChars
          rw [if_neg h0, hd]
          simp
      · simp only [h10, if_neg, if_false]
        have hpos : 0 < n := by
          rcases Nat.eq_zero_or_pos n with h | h
          · exact absurd (by simp [h]) h10
          · exact h
        have hlt : n / 10 < n := Nat.div_lt_self hpos (by norm_num)
        have hf' : n / 10 < f := by omega
        rw [ih (n / 10) hlt f _ hf']
        have hstep : decChars n = decChars (n / 10) ++ [Nat.digitChar (n % 10)] := by
          have hd : Nat.digits 10 n = n % 10 :: Nat.digits 10 (n / 10) :=
            Nat.digits_def' (by norm_num : 1 < 10) hpos
          have hn0 : ¬n = 0 := by omega
          unfold decChars
          rw [if_neg hn0, if_neg h10, hd]
          simp
        rw [hstep, List.append_assoc]
        rfl

theorem repr_data (n : Nat) : (Nat.repr n).data = decChars n := by
  show (Nat.toDigits 10 n).asString.data = decChars n
  rw [Nat.toDigits, toDigitsCore_eq_decChars n (n + 1) [] (Nat.lt_succ_self n)]
  simp [List.asString]

theorem digitChar_mem_digitCharset : ∀ d < 10, Nat.digitChar d ∈ digitCharset := by
  decide

theorem decChars_subset_digits (n : Nat) :
    ∀ c ∈ decChars n, c ∈ digitCharset := by
  intro c hc
  unfold decChars at hc
  by_cases h0 : n = 0
  · rw [if_pos h0] at hc
    simp only [List.mem_singleton] at hc
    simp [hc, digitCharset]
  · rw [if_neg h0] at hc
    simp only [List.mem_reverse, List.mem_map] at hc
    obtain ⟨d, hd, rfl⟩ := hc
    exact digitChar_mem_digitCharset d (Nat.digits_lt_base (by norm_num) hd)

theorem repr_chars (n : Nat) : ∀ c ∈ (Nat.repr n).data, c ∈ digitCharset := by
  rw [repr_data]; exact decChars_subset_digits n

theorem digit_ne_newline {c : Char} (h : c ∈ digitCharset) : c ≠ '\n' := by
  fin_cases h <;> decide

theorem digit_ne_dot {c : Char} (h : c ∈ digitCharset) : c ≠ '.' := by
  fin_cases h <;> decide

theorem digit_ne_slash {c : Char} (h : c ∈ digitCharset) : c ≠ '/' := by
  fin_cases h <;> decide

theorem digit_ne_dash {c : Char} (h : c ∈ digitCharset) : c ≠ '-' := by
  fin_cases h <;> decide

theorem digitChar_inj : ∀ a < 10, ∀ b < 10,
    Nat.digitChar a = Nat.digitChar b → a = b := by
  decide

theorem map_digitChar_inj :
    ∀ (l₁ l₂ : List Nat), (∀ d ∈ l₁, d < 10) → (∀ d ∈ l₂, d < 10) →
      l₁.map Nat.digitChar = l₂.map Nat.digitChar → l₁ = l₂ := by
  intro l₁
  induction l₁ with
  | nil =>
    intro l₂ _ _ h
    cases l₂ with
    | nil => rfl
    | cons y ys => simp at h
  | cons x xs ih =>
    intro l₂ h₁ h₂ h
    cases l₂ with
    | nil => simp at h
    | cons y ys =>
      simp only [List.map_cons, List.cons.injEq] at h
      have hx : x = y :=
        digitChar_inj x (h₁ x (List.mem_cons_self x xs))
          y (h₂ y (List.mem_cons_self y ys)) h.1
      have hxs : xs = ys := ih ys
        (fun d hd => h₁ d (List.mem_cons_of_mem x hd))
        (fun d hd => h₂ d (List.mem_cons_of_mem y hd)) h.2
      rw [hx, hxs]

theorem decChars_inj {n m : Nat} (h : decChars n = decChars m) : n = m := by
  have key : ∀ k : Nat, 0 < k → decChars k ≠ ['0'] := by
    intro k hk hcon
    unfold decChars at hcon
    rw [if_neg (by omega : ¬k = 0)] at hcon
    have hmap : (Nat.digits 10 k).map Nat.digitChar = ['0'] := by
      have := congrArg List.reverse hcon
      simpa using this
    rcases hdig : Nat.digits 10 k with _ | ⟨d, rest⟩
    · rw [hdig] at hmap; simp at hmap
    · rw [hdig] at hmap
      rcases rest with _ | ⟨d₂, rest₂⟩
      · simp only [List.map_cons, List.map_nil, List.cons.injEq, and_true] at hmap
        have hd10 : d < 10 :=
          Nat.digits_lt_base (by norm_num) (by rw [hdig]; exact List.mem_singleton_self d)
        have hd0 : d = 0 := by
          refine digitChar_inj d hd10 0 (by norm_num) ?_
          rw [hmap]; rfl
        have hzero : k = 0 := by
          have hof := Nat.ofDigits_digits 10 k
          rw [hdig, hd0] at hof
          simpa [Nat.ofDigits] using hof.symm
        omega
      · simp at hmap
  by_cases h0 : n = 0
  · by_cases hm0 : m = 0
    · omega
    · exfalso
      apply key m (Nat.pos_of_ne_zero hm0)
      rw [← h, h0]
      simp [decChars]
  · by_cases hm0 : m = 0
    · exfalso
      apply key n (Nat.pos_of_ne_zero h0)
      rw [h, hm0]
      simp [decChars]
    · unfold decChars at h
      rw [if_neg h0, if_neg hm0] at h
      have hmap : (Nat.digits 10 n).map Nat.digitChar
          = (Nat.digits 10 m).map Nat.digitChar :=
        List.reverse_injective h
      have hdig : Nat.digits 10 n = Nat.digits 10 m :=
        map_digitChar_inj _ _
          (fun d hd => Nat.digits_lt_base (by norm_num) hd)
          (fun d hd => Nat.digits_lt_base (by norm_num) hd) hmap
      have hof := Nat.ofDigits_digits 10 n
      rw [hdig, Nat.ofDigits_digits] at hof
      exact hof.symm

theorem repr_inj {n m : Nat} (h : Nat.repr n = Nat.repr m) : n = m :=
  decChars_inj (by rw [← repr_data, ← repr_data, h])

/-! ### Splitting concatenations at a distinguished character -/

theorem append_cons_inj_left {c : Char} :
    ∀ (a₁ a₂ b₁ b₂ : List Char), c ∉ a₁ → c ∉ a₂ →
      a₁ ++ c :: b₁ = a₂ ++ c :: b₂ → a₁ = a₂ ∧ b₁ = b₂ := by
  intro a₁
  induction a₁ with
  | nil =>
    intro a₂ b₁ b₂ _ h₂ h
    cases a₂ with
    | nil => simpa using h
    | cons y ys =>
      exfalso
      simp only [List.nil_append, List.cons_append, List.cons.injEq] at h
      exact h₂ (h.1 ▸ List.mem_cons_self y ys)
  | cons x xs ih =>
    intro a₂ b₁ b₂ h₁ h₂ h
    cases a₂ with
    | nil =>
      exfalso
      simp only [List.nil_append, List.cons_append, List.cons.injEq] at h
      exact h₁ (h.1.symm ▸ List.mem_cons_self x xs)
    | cons y ys =>
      simp only [List.cons_append, List.cons.injEq] at h
      have hrec := ih ys b₁ b₂
        (fun hc => h₁ (List.mem_cons_of_mem x hc))
        (fun hc => h₂ (List.mem_cons_of_mem y hc)) h.2
      exact ⟨by rw [h.1, hrec.1], hrec.2⟩

theorem append_cons_inj_right {c : Char} (a₁ a₂ b₁ b₂ : List Char)
    (h₁ : c ∉ b₁) (h₂ : c ∉ b₂) (h : a₁ ++ c :: b₁ = a₂ ++ c :: b₂) :
    a₁ = a₂ ∧ b₁ = b₂ := by
  have hrev := congrArg List.reverse h
  simp only [List.reverse_append, List.reverse_cons, List.append_assoc,
    List.singleton_append] at hrev
  have := append_cons_inj_left b₁.reverse b₂.reverse a₁.reverse a₂.reverse
    (by simpa using h₁) (by simpa using h₂) hrev
  exact ⟨List.reverse_injective this.2, List.reverse_injective this.1⟩

theorem joinSep_cons_append (c : Char) (a b : List Char) (rest : List (List Char)) :
    joinSep c ((a ++ c :: b) :: rest) = a ++ c :: joinSep c (b :: rest) := by
  cases rest with
  | nil => rfl
  | cons r rs => simp [joinSep, List.append_assoc]

theorem intercalate_go_data (c : Char) (s : String) (hs : s.data = [c]) :
    ∀ (l : List String) (a : String),
      (String.intercalate.go a s l).data = joinSep c (a.data :: l.map String.data) := by
  intro l
  induction l with
  | nil => intro a; simp [String.intercalate.go, joinSep]
  | cons x xs ih =>
    intro a
    show (String.intercalate.go (a ++ s ++ x) s xs).data = _
    rw [ih]
    have hd : (a ++ s ++ x).data = a.data ++ c :: x.data := by
      simp [String.data_append, hs]
    rw [hd, joinSep_cons_append]
    rfl

theorem intercalate_data (c : Char) (s : String) (hs : s.data = [c]) :
    ∀ l : List String,
      (String.intercalate s l).data = joinSep c (l.map String.data) := by
  intro l
  cases l with
  | nil => rfl
  | cons x xs => exact intercalate_go_data c s hs xs x

theorem joinSep_append_singleton (c : Char) :
    ∀ (zs : List (List Char)) (z : List Char), zs ≠ [] →
      joinSep c (zs ++ [z]) = joinSep c zs ++ c :: z := by
  intro zs
  induction zs with
  | nil => intro z h; exact absurd rfl h
  | cons x xs ih =>
    intro z _
    cases xs with
    | nil => rfl
    | cons y ys =>
      show x ++ c :: joinSep c ((y :: ys) ++ [z]) = (x ++ c :: joinSep c (y :: ys)) ++ c :: z
      rw [ih z (by simp), List.append_assoc]
      rfl

theorem joinSep_reverse (c : Char) :
    ∀ xs : List (List Char),
      (joinSep c xs).reverse = joinSep c ((xs.map List.reverse).reverse) := by
  intro xs
  induction xs with
  | nil => rfl
  | cons x ys ih =>
    cases ys with
    | nil => rfl
    | cons y zs =>
      show (x ++ c :: joinSep c (y :: zs)).reverse = _
      rw [List.reverse_append, List.reverse_cons]
      rw [ih]
      have hne : (((y :: zs).map List.reverse).reverse : List (List Char)) ≠ [] := by
        simp
      have hrhs : ((x :: y :: zs).map List.reverse).reverse
          = ((y :: zs).map List.reverse).reverse ++ [x.reverse] := by simp
      rw [List.append_assoc, List.singleton_append, hrhs,
        joinSep_append_singleton c _ x.reverse hne]

theorem joinSep_inj {c : Char} :
    ∀ (xs ys : List (List Char)), xs.length = ys.length →
      (∀ l ∈ xs.dropLast, c ∉ l) → (∀ l ∈ ys.dropLast, c ∉ l) →
      joinSep c xs = joinSep c ys → xs = ys := by
  intro xs
  induction xs with
  | nil =>
    intro ys hlen _ _ _
    cases ys with
    | nil => rfl
    | cons y ys => simp at hlen
  | cons x xs ih =>
    intro ys hlen hx hy h
    cases ys with
    | nil => simp at hlen
    | cons y ys =>
      cases xs with
      | nil =>
        cases ys with
        | nil => simpa [joinSep] using h
        | cons y₂ ys₂ => simp at hlen
      | cons x₂ xs₂ =>
        cases ys with
        | nil => simp at hlen
        | cons y₂ ys₂ =>
          have hsplit := append_cons_inj_left x y
            (joinSep c (x₂ :: xs₂)) (joinSep c (y₂ :: ys₂))
            (hx x (by simp [List.dropLast]))
            (hy y (by simp [List.dropLast])) h
          have htail : x₂ :: xs₂ = y₂ :: ys₂ := by
            refine ih (y₂ :: ys₂) (by simpa using hlen) ?_ ?_ hsplit.2
            · intro l hl
              exact hx l (by simp [List.dropLast]; exact Or.inr hl)
            · intro l hl
              exact hy l (by simp [List.dropLast]; exact Or.inr hl)
          rw [hsplit.1, htail]

/-! ### Injectivity and character facts for the field renderings -/

theorem fracStr_chars (r : Nat) : ∀ c ∈ (fracStr r).data, c ∈ digitCharset := by
  intro c hc
  unfold fracStr at hc
  split_ifs at hc
  · simp only [show ("0" : String).data = ['0'] from rfl, List.mem_singleton] at hc
    simp [hc, digitCharset]
  · exact repr_chars _ c hc
  · rw [String.data_append] at hc
    rcases List.mem_append.mp hc with h | h
    · simp only [show ("0" : String).data = ['0'] from rfl, List.mem_singleton] at h
      simp [h, digitCharset]
    · exact repr_chars _ c h
  · exact repr_chars _ c hc

set_option maxRecDepth 4000 in

theorem fracStr_inj_lt : ∀ r₁ < 100, ∀ r₂ < 100, fracStr r₁ = fracStr r₂ → r₁ = r₂ := by
  decide

theorem scaleStr_chars (n : Nat) :
    ∀ c ∈ (scaleStr n).data, c ∈ digitCharset ∨ c = '.' := by
  intro c hc
  unfold scaleStr at hc
  simp only [String.data_append, List.mem_append,
    show ("." : String).data = ['.'] from rfl, List.mem_singleton] at hc
  rcases hc with (h | h) | h
  · exact Or.inl (repr_chars _ c h)
  · exact Or.inr h
  · exact Or.inl (fracStr_chars _ c h)

theorem scaleStr_inj {n m : Nat} (h : scaleStr n = scaleStr m) : n = m := by
  have hdot : ("." : String).data = ['.'] := rfl
  have hdata := congrArg String.data h
  simp only [scaleStr, String.data_append, hdot, List.append_assoc,
    List.singleton_append] at hdata
  have hsplit := append_cons_inj_left (Nat.repr (n / 100)).data (Nat.repr (m / 100)).data
    (fracStr (n % 100)).data (fracStr (m % 100)).data
    (fun hc => digit_ne_dot (repr_chars _ _ hc) rfl)
    (fun hc => digit_ne_dot (repr_chars _ _ hc) rfl) hdata
  have hq : n / 100 = m / 100 := repr_inj (String.ext hsplit.1)
  have hr : n % 100 = m % 100 :=
    fracStr_inj_lt (n % 100) (Nat.mod_lt n (by norm_num)) (m % 100)
      (Nat.mod_lt m (by norm_num)) (String.ext hsplit.2)
  omega

theorem scaleStr_no_newline (n : Nat) : '\n' ∉ (scaleStr n).data := by
  intro hc
  rcases scaleStr_chars n '\n' hc with h | h
  · exact digit_ne_newline h rfl
  · simp at h

theorem repr_no_newline (n : Nat) : '\n' ∉ (Nat.repr n).data :=
  fun hc => digit_ne_newline (repr_chars n '\n' hc) rfl

theorem pyStrOptNat_no_newline (o : Option Nat) : '\n' ∉ (pyStrOptNat o).data := by
  cases o with
  | none =>
    show '\n' ∉ ("None" : String).data
    decide
  | some n => exact repr_no_newline n

theorem pyStrOptNat_inj {o₁ o₂ : Option Nat}
    (h : pyStrOptNat o₁ = pyStrOptNat o₂) : o₁ = o₂ := by
  have hnone : ∀ n : Nat, Nat.repr n ≠ "None" := by
    intro n hcon
    have : 'N' ∈ (Nat.repr n).data := by
      rw [hcon]; decide
    have := repr_chars n 'N' this
    simp [digitCharset] at this
  cases o₁ with
  | none =>
    cases o₂ with
    | none => rfl
    | some m => exact absurd h.symm (hnone m)
  | some n =>
    cases o₂ with
    | none => exact absurd h (hnone n)
    | some m => rw [repr_inj h]

theorem boolStr_no_newline (b : Bool) : '\n' ∉ (boolStr b).data := by
  cases b <;> · show '\n' ∉ _; decide

theorem boolStr_inj {b₁ b₂ : Bool} (h : boolStr b₁ = boolStr b₂) : b₁ = b₂ := by
  cases b₁ <;> cases b₂ <;> first
    | rfl
    | exact absurd h (by decide)

theorem joinSep_inj_of_not_mem {c : Char} :
    ∀ (xs ys : List (List Char)), xs ≠ [] → ys ≠ [] →
      (∀ l ∈ xs, c ∉ l) → (∀ l ∈ ys, c ∉ l) →
      joinSep c xs = joinSep c ys → xs = ys := by
  intro xs
  induction xs with
  | nil => intro ys hne _ _ _ _; exact absurd rfl hne
  | cons x xs ih =>
    intro ys _ hyne hx hy h
    cases ys with
    | nil => exact absurd rfl hyne
    | cons y ys =>
      cases xs with
      | nil =>
        cases ys with
        | nil => simpa [joinSep] using h
        | cons y₂ ys₂ =>
          exfalso
          have hcmem : c ∈ joinSep c [x] := by
            rw [h]
            show c ∈ y ++ c :: joinSep c (y₂ :: ys₂)
            exact List.mem_append_right _ (List.mem_cons_self _ _)
          exact hx x (List.mem_singleton_self x) hcmem
      | cons x₂ xs₂ =>
        cases ys with
        | nil =>
          exfalso
          have hcmem : c ∈ joinSep c [y] := by
            rw [← h]
            show c ∈ x ++ c :: joinSep c (x₂ :: xs₂)
            exact List.mem_append_right _ (List.mem_cons_self _ _)
          exact hy y (List.mem_singleton_self y) hcmem
        | cons y₂ ys₂ =>
          have hsplit := append_cons_inj_left x y
            (joinSep c (x₂ :: xs₂)) (joinSep c (y₂ :: ys₂))
            (hx x (List.mem_cons_self _ _)) (hy y (List.mem_cons_self _ _)) h
          have htail : x₂ :: xs₂ = y₂ :: ys₂ := by
            refine ih (y₂ :: ys₂) (by simp) (by simp) ?_ ?_ hsplit.2
            · exact fun l hl => hx l (List.mem_cons_of_mem x hl)
            · exact fun l hl => hy l (List.mem_cons_of_mem y hl)
          rw [hsplit.1, htail]

theorem relPathStr_inj (p₁ p₂ : List String)
    (h₁ : ∀ s ∈ p₁, ('/' ∉ s.data) ∧ s ≠ ".")
    (h₂ : ∀ s ∈ p₂, ('/' ∉ s.data) ∧ s ≠ ".")
    (h : relPathStr p₁ = relPathStr p₂) : p₁ = p₂ := by
  have hslash : ("/" : String).data = ['/'] := rfl
  have hdotne : ∀ (q : List String), (∀ s ∈ q, ('/' ∉ s.data) ∧ s ≠ ".") →
      ∀ y ys, q = y :: ys → ("." : String) ≠ String.intercalate "/" q := by
    intro q hq y ys hcons hcon
    have hdata := congrArg String.data hcon
    rw [intercalate_data '/' "/" hslash q, hcons] at hdata
    cases ys with
    | nil =>
      have : y = "." := String.ext (by simpa [joinSep] using hdata.symm)
      exact (hq y (by rw [hcons]; exact List.mem_cons_self _ _)).2 this
    | cons z zs =>
      have hmem : '/' ∈ joinSep '/' ((y :: z :: zs).map String.data) := by
        show '/' ∈ y.data ++ '/' :: joinSep '/' ((z :: zs).map String.data)
        exact List.mem_append_right _ (List.mem_cons_self _ _)
      rw [← hdata] at hmem
      simp [show ("." : String).data = ['.'] from rfl] at hmem
  cases hp₁ : p₁ with
  | nil =>
    cases hp₂ : p₂ with
    | nil => rfl
    | cons y ys =>
      exfalso
      rw [hp₁, hp₂] at h
      rw [relPathStr, relPathStr, if_pos rfl, if_neg (by simp)] at h
      exact hdotne (y :: ys) (by rw [← hp₂]; exact fun s hs => h₂ s (hp₂ ▸ hs)) y ys rfl h
  | cons x xs =>
    cases hp₂ : p₂ with
    | nil =>
      exfalso
      rw [hp₁, hp₂] at h
      rw [relPathStr, relPathStr, if_neg (by simp), if_pos rfl] at h
      exact hdotne (x :: xs) (by exact fun s hs => h₁ s (hp₁ ▸ hs)) x xs rfl h.symm
    | cons y ys =>
      rw [hp₁, hp₂] at h
      rw [relPathStr, relPathStr, if_neg (by simp), if_neg (by simp)] at h
      have hdata := congrArg String.data h
      rw [intercalate_data '/' "/" hslash, intercalate_data '/' "/" hslash] at hdata
      have hmaps := joinSep_inj_of_not_mem
        ((x :: xs).map String.data) ((y :: ys).map String.data)
        (by simp) (by simp) ?_ ?_ hdata
      · have hinj : Function.Injective String.data := fun a b hab => String.ext hab
        exact List.map_injective_iff.mpr hinj hmaps
      · intro l hl
        simp only [List.mem_map] at hl
        obtain ⟨s, hs, rfl⟩ := hl
        exact (h₁ s (hp₁ ▸ hs)).1
      · intro l hl
        simp only [List.mem_map] at hl
        obtain ⟨s, hs, rfl⟩ := hl
        exact (h₂ s (hp₂ ▸ hs)).1

/-! ### General facts about the embedded operations -/

theorem relative_to_append (root rel : PyPath) :
    relative_to (root ++ rel) root = some rel := by
  unfold relative_to
  rw [if_pos ( List.isPrefixOf_iff_prefix.mpr (List.prefix_append root rel)),
    List.drop_left]

theorem render_step_spawned (sha1hex : String → String) (platformSystem : String)
    (display : Option String) (environ : Env)
    (run : List String → Env → ProcResult) (existsAfter : PyPath → Bool)
    (config : DrawioConfig) (options : DrawioOptions)
    (srcdir input_relpath in_filename : PyPath) (default_output_format : String) :
    (render_step sha1hex platformSystem display environ run existsAfter
        config options srcdir input_relpath in_filename default_output_format).spawned
      = [drawio_args sha1hex platformSystem srcdir input_relpath in_filename
          options config default_output_format] := by
  unfold render_step
  rcases run (drawio_args sha1hex platformSystem srcdir input_relpath in_filename
      options config default_output_format)
      (new_env config platformSystem display environ) with exc | ⟨code, sout, serr⟩
  · rfl
  · by_cases hc : code = 0
    · by_cases he : existsAfter (export_path sha1hex srcdir input_relpath in_filename
          options config default_output_format) <;> simp [hc, he]
    · simp [hc]

theorem join6_fields_inj {c : Char} {a₁ b₁ c₁ d₁ e₁ f₁ a₂ b₂ c₂ d₂ e₂ f₂ : List Char}
    (hb₁ : c ∉ b₁) (hc₁ : c ∉ c₁) (hd₁ : c ∉ d₁) (he₁ : c ∉ e₁) (hf₁ : c ∉ f₁)
    (hb₂ : c ∉ b₂) (hc₂ : c ∉ c₂) (hd₂ : c ∉ d₂) (he₂ : c ∉ e₂) (hf₂ : c ∉ f₂)
    (h : joinSep c [a₁, b₁, c₁, d₁, e₁, f₁] = joinSep c [a₂, b₂, c₂, d₂, e₂, f₂]) :
    a₁ = a₂ ∧ b₁ = b₂ ∧ c₁ = c₂ ∧ d₁ = d₂ ∧ e₁ = e₂ ∧ f₁ = f₂ := by
  rw [show ([a₁, b₁, c₁, d₁, e₁, f₁] : List (List Char))
        = [a₁, b₁, c₁, d₁, e₁] ++ [f₁] from rfl,
    joinSep_append_singleton c _ _ (by simp),
    show ([a₂, b₂, c₂, d₂, e₂, f₂] : List (List Char))
        = [a₂, b₂, c₂, d₂, e₂] ++ [f₂] from rfl,
    joinSep_append_singleton c _ _ (by simp)] at h
  obtain ⟨h, hf⟩ := append_cons_inj_right _ _ _ _ hf₁ hf₂ h
  rw [show ([a₁, b₁, c₁, d₁, e₁] : List (List Char)) = [a₁, b₁, c₁, d₁] ++ [e₁] from rfl,
    joinSep_append_singleton c _ _ (by simp),
    show ([a₂, b₂, c₂, d₂, e₂] : List (List Char)) = [a₂, b₂, c₂, d₂] ++ [e₂] from rfl,
    joinSep_append_singleton c _ _ (by simp)] at h
  obtain ⟨h, he⟩ := append_cons_inj_right _ _ _ _ he₁ he₂ h
  rw [show ([a₁, b₁, c₁, d₁] : List (List Char)) = [a₁, b₁, c₁] ++ [d₁] from rfl,
    joinSep_append_singleton c _ _ (by simp),
    show ([a₂, b₂, c₂, d₂] : List (List Char)) = [a₂, b₂, c₂] ++ [d₂] from rfl,
    joinSep_append_singleton c _ _ (by simp)] at h
  obtain ⟨h, hd⟩ := append_cons_inj_right _ _ _ _ hd₁ hd₂ h
  rw [show ([a₁, b₁, c₁] : List (List Char)) = [a₁, b₁] ++ [c₁] from rfl,
    joinSep_append_singleton c _ _ (by simp),
    show ([a₂, b₂, c₂] : List (List Char)) = [a₂, b₂] ++ [c₂] from rfl,
    joinSep_append_singleton c _ _ (by simp)] at h
  obtain ⟨h, hc⟩ := append_cons_inj_right _ _ _ _ hc₁ hc₂ h
  rw [show ([a₁, b₁] : List (List Char)) = [a₁] ++ [b₁] from rfl,
    joinSep_append_singleton c _ _ (by simp),
    show ([a₂, b₂] : List (List Char)) = [a₂] ++ [b₂] from rfl,
    joinSep_append_singleton c _ _ (by simp)] at h
  obtain ⟨h, hb⟩ := append_cons_inj_right _ _ _ _ hb₁ hb₂ h
  exact ⟨h, hb, hc, hd, he, hf⟩

/-! ### The claims -/

/-- C2: cache-key derivation is deterministic and independent of the
absolute build location — for the same source-root-relative path and the
same options and configuration, the derived key is the same whatever the
absolute source root is, because the digest is computed over the path
relative to the source root together with page index, scale, transparency
and the optional dimensions. -/
theorem cache_key_location_independence (sha1hex : String → String)
    (root₁ root₂ rel : PyPath) (options : DrawioOptions) (config : DrawioConfig) :
    (relative_to (root₁ ++ rel) root₁).map
        (fun r => sha_key sha1hex r options config)
      = (relative_to (root₂ ++ rel) root₂).map
        (fun r => sha_key sha1hex r options config)
    ∧ (relative_to (root₁ ++ rel) root₁).map
        (fun r => sha_key sha1hex r options config)
      = some (sha_key sha1hex rel options config) := by
  rw [relative_to_append, relative_to_append]
  exact ⟨rfl, rfl⟩

/-- C10: omitting `export-scale` is equivalent to setting it to the
builder default `drawio_default_export_scale`, and omitting
`transparency` is equivalent to setting it to
`drawio_default_transparency`: the cache-key string and the renderer
argument vector coincide. -/
theorem default_option_equivalence (sha1hex : String → String)
    (platformSystem : String) (srcdir input_relpath in_filename : PyPath)
    (options : DrawioOptions) (config : DrawioConfig)
    (default_output_format : String) :
    (hash_key input_relpath { options with export_scale := none } config
       = hash_key input_relpath
           { options with export_scale := some config.drawio_default_export_scale }
           config)
    ∧ (drawio_args sha1hex platformSystem srcdir input_relpath in_filename
         { options with export_scale := none } config default_output_format
         = drawio_args sha1hex platformSystem srcdir input_relpath in_filename
             { options with export_scale := some config.drawio_default_export_scale }
             config default_output_format)
    ∧ (hash_key input_relpath { options with transparency := none } config
         = hash_key input_relpath
             { options with transparency := some config.drawio_default_transparency }
             config)
    ∧ (drawio_args sha1hex platformSystem srcdir input_relpath in_filename
         { options with transparency := none } config default_output_format
         = drawio_args sha1hex platformSystem srcdir input_relpath in_filename
             { options with transparency := some config.drawio_default_transparency }
             config default_output_format) :=
  ⟨rfl, rfl, rfl, rfl⟩

/-- C9 counterexample: with the Auto policy on Linux and `DISPLAY` set to
the empty string, the decision is headless even though a display
environment variable *is* set, refuting "headless exactly when the
platform supports the mechanism and no display variable is set". -/
theorem auto_headless_counterexample :
    ¬(is_headless HeadlessConfig.auto "Linux" (some "") = true
        ↔ ("Linux" = "Linux" ∧ (some "" : Option String) = none)) := by
  decide

/-- C9 amended: under the Auto policy the decision is headless exactly
when the platform is Linux and the display variable is not set to a
non-empty value (Python truthiness); whenever the decision is
non-headless, the renderer environment is passed through unchanged (no
`DISPLAY` override) and no Xvfb display session is spawned. -/
theorem auto_headless_decision (platformSystem : String) (display : Option String)
    (environ : Env) (config : DrawioConfig) :
    (is_headless HeadlessConfig.auto platformSystem display = true
       ↔ (platformSystem = "Linux" ∧ strTruthy display = false))
    ∧ (is_headless config.drawio_headless platformSystem display = false →
        new_env config platformSystem display environ = environ
        ∧ on_config_inited_spawn config platformSystem display = none) := by
  constructor
  · unfold is_headless
    by_cases hp : platformSystem = "Linux"
    · by_cases hd : strTruthy display <;> simp [hp, hd]
    · simp [hp]
  · intro h
    unfold new_env on_config_inited_spawn
    rw [h]
    exact ⟨rfl, rfl⟩

/-- C7: a source file outside the source root makes the relativization
fail, so no cache key is derived and `drawio_export` raises the
`ValueError` (the specification's `InvalidRequest` rejection) without
spawning any external process. -/
theorem outside_root_rejected (sha1hex : String → String) (platformSystem : String)
    (display : Option String) (environ : Env) (stat : PyPath → Option Int)
    (run : List String → Env → ProcResult) (existsAfter : PyPath → Bool)
    (config : DrawioConfig) (options : DrawioOptions)
    (srcdir in_filename : PyPath) (default_output_format : String)
    (h : ¬srcdir <+: in_filename) :
    relative_to in_filename srcdir = none
    ∧ drawio_export sha1hex platformSystem display environ stat run existsAfter
        config options srcdir in_filename default_output_format
      = { result := Except.error (ExportError.relativeToValueError
            ("'" ++ pathStr in_filename ++ "' is not in the subpath of '"
              ++ pathStr srcdir
              ++ "' OR one path is relative and the other is absolute.")),
          spawned := [] } := by
  have hrt : relative_to in_filename srcdir = none := by
    unfold relative_to
    rw [if_neg]
    simpa [ List.isPrefixOf_iff_prefix] using h
  refine ⟨hrt, ?_⟩
  unfold drawio_export
  rw [hrt]

/-- C7 witness at a concrete out-of-root path. -/
theorem outside_root_rejected_witness :
    ¬(["other"] : PyPath) <+: ["src", "a.drawio"]
    ∧ (relative_to ["src", "a.drawio"] ["other"] = none
       ∧ drawio_export (fun _ => "K") "Linux" none (fun _ => none) (fun _ => none)
           (fun _ _ => ProcResult.exited 0 "" "") (fun _ => false)
           {} {} ["other"] ["src", "a.drawio"] "png"
         = { result := Except.error (ExportError.relativeToValueError
               ("'" ++ pathStr ["src", "a.drawio"] ++ "' is not in the subpath of '"
                 ++ pathStr ["other"]
                 ++ "' OR one path is relative and the other is absolute.")),
             spawned := [] }) :=
  ⟨by decide, outside_root_rejected (fun _ => "K") "Linux" none (fun _ => none)
    (fun _ => none) (fun _ _ => ProcResult.exited 0 "" "") (fun _ => false)
    {} {} ["other"] ["src", "a.drawio"] "png" (by decide)⟩

/-- C3: for a source inside the root, the export returns the cached path
with no renderer invocation precisely when the artifact exists and its
modification time is strictly greater than the source's; otherwise the
renderer is run. -/
theorem cache_freshness_iff (sha1hex : String → String) (platformSystem : String)
    (display : Option String) (environ : Env) (stat : PyPath → Option Int)
    (run : List String → Env → ProcResult) (existsAfter : PyPath → Bool)
    (config : DrawioConfig) (options : DrawioOptions)
    (srcdir in_filename rel : PyPath) (default_output_format : String) (sm : Int)
    (hrel : relative_to in_filename srcdir = some rel)
    (hsm : stat in_filename = some sm) :
    ((drawio_export sha1hex platformSystem display environ stat run existsAfter
        config options srcdir in_filename default_output_format).result
       = Except.ok (export_path sha1hex srcdir rel in_filename options config
           default_output_format)
     ∧ (drawio_export sha1hex platformSystem display environ stat run existsAfter
         config options srcdir in_filename default_output_format).spawned = [])
    ↔ (∃ am : Int,
        stat (export_path sha1hex srcdir rel in_filename options config
          default_output_format) = some am ∧ am > sm) := by
  simp only [drawio_export, hrel]
  rcases hstat : stat (export_path sha1hex srcdir rel in_filename options config
      default_output_format) with _ | am
  all_goals dsimp only
  · constructor
    · intro hok
      have h2 := hok.2
      rw [render_step_spawned] at h2
      exact absurd h2 (by simp)
    · rintro ⟨am, ham, _⟩
      exact absurd ham (by simp)
  · rw [hsm]
    dsimp only
    by_cases hgt : am > sm
    · rw [if_pos hgt]
      exact ⟨fun _ => ⟨am, rfl, hgt⟩, fun _ => ⟨rfl, rfl⟩⟩
    · rw [if_neg hgt]
      constructor
      · intro hok
        have h2 := hok.2
        rw [render_step_spawned] at h2
        exact absurd h2 (by simp)
      · rintro ⟨am', ham', hgt'⟩
        have ham'' : am = am' := by injection ham'
        exact absurd (ham'' ▸ hgt') hgt

/-- C3 witness at a concrete fresh cache entry (artifact mtime 5, source
mtime 3). -/
theorem cache_freshness_iff_witness :
    relative_to ["src", "a.drawio"] ["src"] = some ["a.drawio"]
    ∧ ((fun p => if p = (["src", ".drawio", "K", "a.png"] : PyPath) then some (5 : Int)
          else if p = (["src", "a.drawio"] : PyPath) then some 3 else none)
        (["src", "a.drawio"] : PyPath) = some 3)
    ∧ (((drawio_export (fun _ => "K") "Linux" none (fun _ => none)
          (fun p => if p = (["src", ".drawio", "K", "a.png"] : PyPath) then some (5 : Int)
            else if p = (["src", "a.drawio"] : PyPath) then some 3 else none)
          (fun _ _ => ProcResult.exited 0 "" "") (fun _ => true)
          {} {} ["src"] ["src", "a.drawio"] "png").result
         = Except.ok (export_path (fun _ => "K") ["src"] ["a.drawio"]
             ["src", "a.drawio"] {} {} "png")
       ∧ (drawio_export (fun _ => "K") "Linux" none (fun _ => none)
          (fun p => if p = (["src", ".drawio", "K", "a.png"] : PyPath) then some (5 : Int)
            else if p = (["src", "a.drawio"] : PyPath) then some 3 else none)
          (fun _ _ => ProcResult.exited 0 "" "") (fun _ => true)
          {} {} ["src"] ["src", "a.drawio"] "png").spawned = [])
      ↔ (∃ am : Int,
          (fun p => if p = (["src", ".drawio", "K", "a.png"] : PyPath) then some (5 : Int)
            else if p = (["src", "a.drawio"] : PyPath) then some 3 else none)
            (export_path (fun _ => "K") ["src"] ["a.drawio"] ["src", "a.drawio"]
              {} {} "png") = some am ∧ am > 3)) :=
  ⟨by decide, by decide,
    cache_freshness_iff (fun _ => "K") "Linux" none (fun _ => none)
      (fun p => if p = (["src", ".drawio", "K", "a.png"] : PyPath) then some (5 : Int)
        else if p = (["src", "a.drawio"] : PyPath) then some 3 else none)
      (fun _ _ => ProcResult.exited 0 "" "") (fun _ => true)
      {} {} ["src"] ["src", "a.drawio"] ["a.drawio"] "png" 3 (by decide) (by decide)⟩

/-- C4: on a cache miss the invocation succeeds exactly when the external
process exits with status zero and the target artifact exists afterwards;
a zero exit with a missing artifact yields the distinct output-missing
error (a different constructor from the non-zero-exit failure), carrying
the captured stderr and stdout. -/
theorem renderer_postcondition (sha1hex : String → String) (platformSystem : String)
    (display : Option String) (environ : Env) (stat : PyPath → Option Int)
    (run : List String → Env → ProcResult) (existsAfter : PyPath → Bool)
    (config : DrawioConfig) (options : DrawioOptions)
    (srcdir in_filename rel : PyPath) (default_output_format : String)
    (hrel : relative_to in_filename srcdir = some rel)
    (hmiss : stat (export_path sha1hex srcdir rel in_filename options config
        default_output_format) = none) :
    ((drawio_export sha1hex platformSystem display environ stat run existsAfter
        config options srcdir in_filename default_output_format).result
       = Except.ok (export_path sha1hex srcdir rel in_filename options config
           default_output_format)
     ↔ ∃ sout serr,
         run (drawio_args sha1hex platformSystem srcdir rel in_filename options
            config default_output_format)
            (new_env config platformSystem display environ)
           = ProcResult.exited 0 sout serr
         ∧ existsAfter (export_path sha1hex srcdir rel in_filename options config
             default_output_format) = true)
    ∧ (∀ sout serr,
        run (drawio_args sha1hex platformSystem srcdir rel in_filename options
           config default_output_format)
           (new_env config platformSystem display environ)
          = ProcResult.exited 0 sout serr →
        existsAfter (export_path sha1hex srcdir rel in_filename options config
          default_output_format) = false →
        (drawio_export sha1hex platformSystem display environ stat run existsAfter
            config options srcdir in_filename default_output_format).result
          = Except.error (ExportError.outputMissing
              ("draw.io did not produce an output file:\n[stderr]\n" ++ serr
                ++ "\n[stdout]\n" ++ sout)))
    ∧ (∀ m₁ m₂ : String,
        ExportError.outputMissing m₁ ≠ ExportError.calledProcessError m₂) := by
  simp only [drawio_export, hrel, hmiss]
  unfold render_step
  rcases hr : run (drawio_args sha1hex platformSystem srcdir rel in_filename options
      config default_output_format)
      (new_env config platformSystem display environ) with exc | ⟨code, sout, serr⟩
  all_goals dsimp only
  · refine ⟨?_, ?_, fun m₁ m₂ hh => ExportError.noConfusion hh⟩
    · constructor
      · intro h; exact absurd h (by simp)
      · rintro ⟨s', e', hrun, _⟩
        exact ProcResult.noConfusion hrun
    · intro s' e' hrun _
      exact ProcResult.noConfusion hrun
  · by_cases hc : code = 0
    · by_cases he : existsAfter (export_path sha1hex srcdir rel in_filename options
          config default_output_format) = true
      · rw [if_pos hc, if_pos he]
        refine ⟨?_, ?_, fun m₁ m₂ hh => ExportError.noConfusion hh⟩
        · exact ⟨fun _ => ⟨sout, serr, by rw [hc], he⟩, fun _ => rfl⟩
        · intro s' e' hrun hfalse
          rw [he] at hfalse
          exact absurd hfalse (by simp)
      · rw [if_pos hc, if_neg he]
        refine ⟨?_, ?_, fun m₁ m₂ hh => ExportError.noConfusion hh⟩
        · constructor
          · intro h; exact absurd h (by simp)
          · rintro ⟨s', e', _, htrue⟩
            exact absurd htrue he
        · intro s' e' hrun _
          injection hrun with hcode hsout hserr
          rw [hsout, hserr]
    · rw [if_neg hc]
      refine ⟨?_, ?_, fun m₁ m₂ hh => ExportError.noConfusion hh⟩
      · constructor
        · intro h; exact absurd h (by simp)
        · rintro ⟨s', e', hrun, _⟩
          injection hrun with hcode _ _
          exact absurd hcode hc
      · intro s' e' hrun _
        injection hrun with hcode _ _
        exact absurd hcode hc

/-- C4 witness at a concrete zero-exit run that produced no file. -/
theorem renderer_postcondition_witness :
    relative_to ["src", "a.drawio"] ["src"] = some ["a.drawio"]
    ∧ ((fun _ => none : PyPath → Option Int)
        (export_path (fun _ => "K") ["src"] ["a.drawio"] ["src", "a.drawio"]
          {} {} "png") = none)
    ∧ (((drawio_export (fun _ => "K") "Linux" none (fun _ => none) (fun _ => none)
          (fun _ _ => ProcResult.exited 0 "OUT" "ERR") (fun _ => false)
          {} {} ["src"] ["src", "a.drawio"] "png").result
         = Except.ok (export_path (fun _ => "K") ["src"] ["a.drawio"]
             ["src", "a.drawio"] {} {} "png")
       ↔ ∃ sout serr,
           (fun _ _ => ProcResult.exited 0 "OUT" "ERR")
               (drawio_args (fun _ => "K") "Linux" ["src"] ["a.drawio"]
                 ["src", "a.drawio"] {} {} "png")
               (new_env {} "Linux" none (fun _ => none))
             = ProcResult.exited 0 sout serr
           ∧ (fun _ => false : PyPath → Bool)
               (export_path (fun _ => "K") ["src"] ["a.drawio"] ["src", "a.drawio"]
                 {} {} "png") = true)
      ∧ (∀ sout serr,
          (fun _ _ => ProcResult.exited 0 "OUT" "ERR")
              (drawio_args (fun _ => "K") "Linux" ["src"] ["a.drawio"]
                ["src", "a.drawio"] {} {} "png")
              (new_env {} "Linux" none (fun _ => none))
            = ProcResult.exited 0 sout serr →
          (fun _ => false : PyPath → Bool)
              (export_path (fun _ => "K") ["src"] ["a.drawio"] ["src", "a.drawio"]
                {} {} "png") = false →
          (drawio_export (fun _ => "K") "Linux" none (fun _ => none) (fun _ => none)
              (fun _ _ => ProcResult.exited 0 "OUT" "ERR") (fun _ => false)
              {} {} ["src"] ["src", "a.drawio"] "png").result
            = Except.error (ExportError.outputMissing
                ("draw.io did not produce an output file:\n[stderr]\n" ++ serr
                  ++ "\n[stdout]\n" ++ sout)))
      ∧ (∀ m₁ m₂ : String,
          ExportError.outputMissing m₁ ≠ ExportError.calledProcessError m₂)) :=
  ⟨by decide, rfl,
    renderer_postcondition (fun _ => "K") "Linux" none (fun _ => none) (fun _ => none)
      (fun _ _ => ProcResult.exited 0 "OUT" "ERR") (fun _ => false)
      {} {} ["src"] ["src", "a.drawio"] ["a.drawio"] "png" (by decide) rfl⟩

/-- C1: the pre-hash concatenation is injective in the cache-key
parameters — two requests with the same source root whose relative path,
effective page index, effective scale, effective transparency, or
optional width/height differ produce different `hash_key` strings, so
their sha1-derived keys differ up to hash collision.  The newline
separator cannot occur in any field after the first, and the relative
path's components are `/`-free, which rules out concatenation collisions
across field boundaries. -/
theorem cache_key_discrimination (rel₁ rel₂ : PyPath) (o₁ o₂ : DrawioOptions)
    (config : DrawioConfig)
    (h₁ : ∀ s ∈ rel₁, ('/' ∉ s.data) ∧ s ≠ ".")
    (h₂ : ∀ s ∈ rel₂, ('/' ∉ s.data) ∧ s ≠ ".")
    (h : hash_key rel₁ o₁ config = hash_key rel₂ o₂ config) :
    rel₁ = rel₂
    ∧ o₁.page_index.getD 0 = o₂.page_index.getD 0
    ∧ exportScale o₁ config = exportScale o₂ config
    ∧ transparentOf o₁ config = transparentOf o₂ config
    ∧ o₁.export_height = o₂.export_height
    ∧ o₁.export_width = o₂.export_width := by
  have h' : joinSep '\n'
      ([relPathStr rel₁, pageIndexStr o₁, scaleStr (exportScale o₁ config),
        boolStr (transparentOf o₁ config), pyStrOptNat o₁.export_height,
        pyStrOptNat o₁.export_width].map String.data)
      = joinSep '\n'
      ([relPathStr rel₂, pageIndexStr o₂, scaleStr (exportScale o₂ config),
        boolStr (transparentOf o₂ config), pyStrOptNat o₂.export_height,
        pyStrOptNat o₂.export_width].map String.data) := by
    rw [← intercalate_data '\n' "\n" rfl, ← intercalate_data '\n' "\n" rfl]
    exact congrArg String.data h
  have hfields := join6_fields_inj
    (fun hc => repr_no_newline _ hc)
    (scaleStr_no_newline _) (boolStr_no_newline _)
    (pyStrOptNat_no_newline _) (pyStrOptNat_no_newline _)
    (fun hc => repr_no_newline _ hc)
    (scaleStr_no_newline _) (boolStr_no_newline _)
    (pyStrOptNat_no_newline _) (pyStrOptNat_no_newline _) h'
  refine ⟨relPathStr_inj rel₁ rel₂ h₁ h₂ (String.ext hfields.1), ?_, ?_, ?_, ?_, ?_⟩
  · exact repr_inj (show Nat.repr (o₁.page_index.getD 0)
      = Nat.repr (o₂.page_index.getD 0) from String.ext hfields.2.1)
  · exact scaleStr_inj (String.ext hfields.2.2.1)
  · exact boolStr_inj (String.ext hfields.2.2.2.1)
  · exact pyStrOptNat_inj (String.ext hfields.2.2.2.2.1)
  · exact pyStrOptNat_inj (String.ext hfields.2.2.2.2.2)

/-- C1 witness at a concrete request. -/
theorem cache_key_discrimination_witness :
    (∀ s ∈ (["sub", "a.drawio"] : PyPath), ('/' ∉ s.data) ∧ s ≠ ".")
    ∧ hash_key ["sub", "a.drawio"] {} {} = hash_key ["sub", "a.drawio"] {} {}
    ∧ ((["sub", "a.drawio"] : PyPath) = ["sub", "a.drawio"]
       ∧ (({} : DrawioOptions)).page_index.getD 0
           = (({} : DrawioOptions)).page_index.getD 0
       ∧ exportScale {} {} = exportScale {} {}
       ∧ transparentOf {} {} = transparentOf {} {}
       ∧ (({} : DrawioOptions)).export_height = (({} : DrawioOptions)).export_height
       ∧ (({} : DrawioOptions)).export_width = (({} : DrawioOptions)).export_width) :=
  ⟨by decide, rfl,
    cache_key_discrimination ["sub", "a.drawio"] ["sub", "a.drawio"] {} {} {}
      (by decide) (by decide) rfl⟩

theorem repr_ne_scaleFlag (n : Nat) : Nat.repr n ≠ "--scale" := by
  intro h
  have hmem : '-' ∈ (Nat.repr n).data := by rw [h]; decide
  exact digit_ne_dash (repr_chars n '-' hmem) rfl

theorem scaleStr_ne_scaleFlag (n : Nat) : scaleStr n ≠ "--scale" := by
  intro h
  have hmem : '-' ∈ (scaleStr n).data := by rw [h]; decide
  rcases scaleStr_chars n '-' hmem with hd | hd
  · exact digit_ne_dash hd rfl
  · exact absurd hd (by decide)

theorem pathStr_pair_has_slash (x y : String) (rest : List String) :
    '/' ∈ (pathStr (x :: y :: rest)).data := by
  unfold pathStr
  rw [intercalate_data '/' "/" rfl]
  show '/' ∈ x.data ++ '/' :: joinSep '/' (y.data :: rest.map String.data)
  exact List.mem_append_right _ (List.mem_cons_self _ _)

theorem pathStr_ne_scaleFlag (p : PyPath) (hlen : 2 ≤ p.length) :
    pathStr p ≠ "--scale" := by
  match p, hlen with
  | x :: y :: rest, _ =>
    intro h
    have hmem := pathStr_pair_has_slash x y rest
    rw [h] at hmem
    exact absurd hmem (by decide)

theorem extra_args_no_scaleFlag (options : DrawioOptions) (config : DrawioConfig) :
    "--scale" ∉ extra_args options config := by
  unfold extra_args
  intro hmem
  rcases List.mem_append.mp hmem with hm | hm
  · rcases List.mem_append.mp hm with hm' | hm'
    · rcases hh : options.export_height with _ | v
      · rw [hh] at hm'
        exact absurd hm' (List.not_mem_nil _)
      · rw [hh] at hm'
        simp only [List.mem_cons, List.not_mem_nil, or_false] at hm'
        rcases hm' with hm' | hm'
        · exact absurd hm' (by decide)
        · exact repr_ne_scaleFlag v hm'.symm
    · rcases hw : options.export_width with _ | v
      · rw [hw] at hm'
        exact absurd hm' (List.not_mem_nil _)
      · rw [hw] at hm'
        simp only [List.mem_cons, List.not_mem_nil, or_false] at hm'
        rcases hm' with hm' | hm'
        · exact absurd hm' (by decide)
        · exact repr_ne_scaleFlag v hm'.symm
  · rcases htr : transparentOf options config
    · rw [htr] at hm
      exact absurd hm (by simp)
    · rw [htr] at hm
      simp only [List.mem_cons, List.not_mem_nil, or_false] at hm
      exact absurd hm (by decide)

/-- C6: the renderer argument vector contains no `--scale` flag exactly
when the output format is `pdf` and the effective scale is 100% (the
documented workaround for the renderer's PDF-at-1.0 defect); in every
other combination the flag and its value are present.  The hypotheses
rule out the degenerate inputs in which the literal string `--scale`
doubles as the configured binary, the input path, or the output format. -/
theorem scale_flag_iff (sha1hex : String → String) (platformSystem : String)
    (srcdir input_relpath in_filename : PyPath) (options : DrawioOptions)
    (config : DrawioConfig) (default_output_format : String)
    (hbin : binary_path config platformSystem ≠ "--scale")
    (hfile : pathStr in_filename ≠ "--scale")
    (hfmt : outputFormat options default_output_format ≠ "--scale") :
    ("--scale" ∉ drawio_args sha1hex platformSystem srcdir input_relpath in_filename
        options config default_output_format)
    ↔ (outputFormat options default_output_format = "pdf"
       ∧ exportScale options config = 100) := by
  constructor
  · intro hnot
    by_contra hcond
    apply hnot
    have hs : "--scale" ∈ scale_args options config
        (outputFormat options default_output_format) := by
      unfold scale_args
      rw [if_neg hcond]
      exact List.mem_cons_self _ _
    unfold drawio_args
    simp only [List.append_assoc, List.mem_append]
    exact Or.inr (Or.inl hs)
  · rintro ⟨hpdf, h100⟩ hmem
    unfold drawio_args at hmem
    simp only [List.append_assoc, List.mem_append] at hmem
    rcases hmem with hm | hm | hm | hm | hm
    · simp only [List.mem_cons, List.not_mem_nil, or_false] at hm
      rcases hm with hm | hm | hm | hm | hm
      · exact hbin hm.symm
      · exact absurd hm (by decide)
      · exact absurd hm (by decide)
      · exact absurd hm (by decide)
      · exact repr_ne_scaleFlag _ hm.symm
    · unfold scale_args at hm
      rw [if_pos ⟨hpdf, h100⟩] at hm
      exact absurd hm (List.not_mem_nil _)
    · exact extra_args_no_scaleFlag options config hm
    · simp only [List.mem_cons, List.not_mem_nil, or_false] at hm
      rcases hm with hm | hm | hm | hm | hm
      · exact absurd hm (by decide)
      · exact hfmt hm.symm
      · exact absurd hm (by decide)
      · refine pathStr_ne_scaleFlag _ ?_ hm.symm
        simp [export_path, export_dir]
      · exact hfile hm.symm
    · rcases hns : config.drawio_no_sandbox
      · rw [hns] at hm
        exact absurd hm (by simp)
      · rw [hns] at hm
        simp only [List.mem_cons, List.not_mem_nil, or_false] at hm
        exact absurd hm (by decide)

/-- C6 witness: with the default configuration a PDF export at the
default 100% scale has no scale flag. -/
theorem scale_flag_iff_witness :
    binary_path {} "Linux" ≠ "--scale"
    ∧ pathStr ["src", "a.drawio"] ≠ "--scale"
    ∧ outputFormat {} "pdf" ≠ "--scale"
    ∧ (("--scale" ∉ drawio_args (fun _ => "K") "Linux" ["src"] ["a.drawio"]
          ["src", "a.drawio"] {} {} "pdf")
       ↔ (outputFormat {} "pdf" = "pdf" ∧ exportScale {} {} = 100)) :=
  ⟨by decide, by decide, by decide,
    scale_flag_iff (fun _ => "K") "Linux" ["src"] ["a.drawio"] ["src", "a.drawio"]
      {} {} "pdf" (by decide) (by decide) (by decide)⟩

theorem containsStr_mk (msg sub pre post : String)
    (h : msg.data = pre.data ++ sub.data ++ post.data) : containsStr msg sub :=
  ⟨pre.data, post.data, h.symm⟩

/-- C5 counterexample: a zero-exit run that produced no output raises the
output-missing error whose message does not contain the external-process
command line, refuting "every fatal rendering error includes the full
command line". -/
theorem fatal_error_cmdline_counterexample :
    (drawio_export (fun _ => "0") "Linux" none (fun _ => none) (fun _ => none)
        (fun _ _ => ProcResult.exited 0 "OUT" "ERR") (fun _ => false)
        {} {} ["src"] ["src", "a.drawio"] "png").result
      = Except.error (ExportError.outputMissing
          "draw.io did not produce an output file:\n[stderr]\nERR\n[stdout]\nOUT")
    ∧ ¬containsStr "draw.io did not produce an output file:\n[stderr]\nERR\n[stdout]\nOUT"
        (String.intercalate " " (drawio_args (fun _ => "0") "Linux" ["src"]
          ["a.drawio"] ["src", "a.drawio"] {} {} "png")) := by
  constructor
  · rfl
  · show ¬((String.intercalate " " (drawio_args (fun _ => "0") "Linux" ["src"]
      ["a.drawio"] ["src", "a.drawio"] {} {} "png")).data
        <:+: ("draw.io did not produce an output file:\n[stderr]\nERR\n[stdout]\nOUT").data)
    decide

/-- C5 amended: the launch-failure and non-zero-exit errors carry the full
command line ( `" ".join(drawio_args)` ); the non-zero-exit and the
output-missing errors carry the captured stderr and stdout verbatim; the
output-missing message, however, does not include the command line, and
the launch-failure message carries the OS error string rather than
process output. -/
theorem fatal_error_messages (sha1hex : String → String) (platformSystem : String)
    (display : Option String) (environ : Env) (stat : PyPath → Option Int)
    (run : List String → Env → ProcResult) (existsAfter : PyPath → Bool)
    (config : DrawioConfig) (options : DrawioOptions)
    (srcdir in_filename rel : PyPath) (default_output_format : String)
    (hrel : relative_to in_filename srcdir = some rel)
    (hmiss : stat (export_path sha1hex srcdir rel in_filename options config
        default_output_format) = none) :
    (∀ exc,
      run (drawio_args sha1hex platformSystem srcdir rel in_filename options
          config default_output_format)
          (new_env config platformSystem display environ) = ProcResult.oserror exc →
      (drawio_export sha1hex platformSystem display environ stat run existsAfter
          config options srcdir in_filename default_output_format).result
        = Except.error (ExportError.launchOSError
            ("draw.io ("
              ++ String.intercalate " " (drawio_args sha1hex platformSystem srcdir
                  rel in_filename options config default_output_format)
              ++ ") exited with error:\n" ++ exc))
      ∧ containsStr
          ("draw.io ("
            ++ String.intercalate " " (drawio_args sha1hex platformSystem srcdir
                rel in_filename options config default_output_format)
            ++ ") exited with error:\n" ++ exc)
          (String.intercalate " " (drawio_args sha1hex platformSystem srcdir rel
            in_filename options config default_output_format)))
    ∧ (∀ code sout serr,
        run (drawio_args sha1hex platformSystem srcdir rel in_filename options
            config default_output_format)
            (new_env config platformSystem display environ)
          = ProcResult.exited code sout serr →
        code ≠ 0 →
        (drawio_export sha1hex platformSystem display environ stat run existsAfter
            config options srcdir in_filename default_output_format).result
          = Except.error (ExportError.calledProcessError
              ("draw.io ("
                ++ String.intercalate " " (drawio_args sha1hex platformSystem srcdir
                    rel in_filename options config default_output_format)
                ++ ") exited with error:\n[stderr]\n" ++ serr
                ++ "\n[stdout]\n" ++ sout))
        ∧ containsStr
            ("draw.io ("
              ++ String.intercalate " " (drawio_args sha1hex platformSystem srcdir
                  rel in_filename options config default_output_format)
              ++ ") exited with error:\n[stderr]\n" ++ serr ++ "\n[stdout]\n" ++ sout)
            (String.intercalate " " (drawio_args sha1hex platformSystem srcdir rel
              in_filename options config default_output_format))
        ∧ containsStr
            ("draw.io ("
              ++ String.intercalate " " (drawio_args sha1hex platformSystem srcdir
                  rel in_filename options config default_output_format)
              ++ ") exited with error:\n[stderr]\n" ++ serr ++ "\n[stdout]\n" ++ sout)
            serr
        ∧ containsStr
            ("draw.io ("
              ++ String.intercalate " " (drawio_args sha1hex platformSystem srcdir
                  rel in_filename options config default_output_format)
              ++ ") exited with error:\n[stderr]\n" ++ serr ++ "\n[stdout]\n" ++ sout)
            sout)
    ∧ (∀ sout serr,
        run (drawio_args sha1hex platformSystem srcdir rel in_filename options
            config default_output_format)
            (new_env config platformSystem display environ)
          = ProcResult.exited 0 sout serr →
        existsAfter (export_path sha1hex srcdir rel in_filename options config
          default_output_format) = false →
        (drawio_export sha1hex platformSystem display environ stat run existsAfter
            config options srcdir in_filename default_output_format).result
          = Except.error (ExportError.outputMissing
              ("draw.io did not produce an output file:\n[stderr]\n" ++ serr
                ++ "\n[stdout]\n" ++ sout))
        ∧ containsStr
            ("draw.io did not produce an output file:\n[stderr]\n" ++ serr
              ++ "\n[stdout]\n" ++ sout) serr
        ∧ containsStr
            ("draw.io did not produce an output file:\n[stderr]\n" ++ serr
              ++ "\n[stdout]\n" ++ sout) sout) := by
  simp only [drawio_export, hrel, hmiss]
  unfold render_step
  rcases hr : run (drawio_args sha1hex platformSystem srcdir rel in_filename options
      config default_output_format)
      (new_env config platformSystem display environ) with exc | ⟨code, sout, serr⟩
  all_goals dsimp only
  · refine ⟨?_, ?_, ?_⟩
    · intro exc' hrun
      injection hrun with hexc
      subst hexc
      refine ⟨rfl, ?_⟩
      exact containsStr_mk _ _ "draw.io (" (") exited with error:\n" ++ exc)
        (by simp [List.append_assoc])
    · intro code' s' e' hrun
      exact absurd hrun (by intro hcon; exact ProcResult.noConfusion hcon)
    · intro s' e' hrun
      exact absurd hrun (by intro hcon; exact ProcResult.noConfusion hcon)
  · refine ⟨?_, ?_, ?_⟩
    · intro exc hrun
      exact absurd hrun (by intro hcon; exact ProcResult.noConfusion hcon)
    · intro code' s' e' hrun hne
      injection hrun with hcode hsout hserr
      subst hcode hsout hserr
      rw [if_neg hne]
      refine ⟨rfl, ?_, ?_, ?_⟩
      · exact containsStr_mk _ _ "draw.io ("
          (") exited with error:\n[stderr]\n" ++ serr ++ "\n[stdout]\n" ++ sout)
          (by simp [List.append_assoc])
      · exact containsStr_mk _ _
          ("draw.io ("
            ++ String.intercalate " " (drawio_args sha1hex platformSystem srcdir rel
                in_filename options config default_output_format)
            ++ ") exited with error:\n[stderr]\n") ("\n[stdout]\n" ++ sout)
          (by simp [List.append_assoc])
      · exact containsStr_mk _ _
          ("draw.io ("
            ++ String.intercalate " " (drawio_args sha1hex platformSystem srcdir rel
                in_filename options config default_output_format)
            ++ ") exited with error:\n[stderr]\n" ++ serr ++ "\n[stdout]\n") ""
          (by simp [List.append_assoc])
    · intro s' e' hrun hfalse
      injection hrun with hcode hsout hserr
      subst hsout hserr
      rw [if_pos hcode, if_neg (by simp [hfalse])]
      refine ⟨rfl, ?_, ?_⟩
      · exact containsStr_mk _ _ "draw.io did not produce an output file:\n[stderr]\n"
          ("\n[stdout]\n" ++ sout) (by simp [List.append_assoc])
      · exact containsStr_mk _ _
          ("draw.io did not produce an output file:\n[stderr]\n" ++ serr
            ++ "\n[stdout]\n") "" (by simp [List.append_assoc])

/-- C5 amended witness at a concrete non-zero-exit run. -/
theorem fatal_error_messages_witness :
    relative_to ["src", "a.drawio"] ["src"] = some ["a.drawio"]
    ∧ ((fun _ => none : PyPath → Option Int)
        (export_path (fun _ => "K") ["src"] ["a.drawio"] ["src", "a.drawio"]
          {} {} "png") = none)
    ∧ ((drawio_export (fun _ => "K") "Linux" none (fun _ => none) (fun _ => none)
          (fun _ _ => ProcResult.exited 1 "OUT" "ERR") (fun _ => false)
          {} {} ["src"] ["src", "a.drawio"] "png").result
        = Except.error (ExportError.calledProcessError
            ("draw.io ("
              ++ String.intercalate " " (drawio_args (fun _ => "K") "Linux" ["src"]
                  ["a.drawio"] ["src", "a.drawio"] {} {} "png")
              ++ ") exited with error:\n[stderr]\n" ++ "ERR"
              ++ "\n[stdout]\n" ++ "OUT"))) := by
  refine ⟨by decide, rfl, ?_⟩
  exact ((fatal_error_messages (fun _ => "K") "Linux" none (fun _ => none)
    (fun _ => none) (fun _ _ => ProcResult.exited 1 "OUT" "ERR") (fun _ => false)
    {} {} ["src"] ["src", "a.drawio"] ["a.drawio"] "png" (by decide) rfl).2.1
    1 "OUT" "ERR" rfl (by decide)).1

/-- C8 counterexample: two requests identical in every cache-key
parameter but with different output formats produce the same hash key and
the same cache-entry directory, yet different artifact files inside it —
so a cache-entry directory does not contain exactly one artifact file,
and the key does not cover every parameter affecting the artifact. -/
theorem cache_entry_counterexample :
    hash_key ["a.drawio"] { format := some "svg" } {}
      = hash_key ["a.drawio"] { format := some "pdf" } {}
    ∧ export_dir (fun _ => "K") ["s"] ["a.drawio"] { format := some "svg" } {}
      = export_dir (fun _ => "K") ["s"] ["a.drawio"] { format := some "pdf" } {}
    ∧ export_path (fun _ => "K") ["s"] ["a.drawio"] ["s", "a.drawio"]
        { format := some "svg" } {} "png"
      ≠ export_path (fun _ => "K") ["s"] ["a.drawio"] ["s", "a.drawio"]
        { format := some "pdf" } {} "png" :=
  ⟨rfl, rfl, by decide⟩

/-- C8 amended: a cache-entry directory is named by the key derived from
relative path, page index, scale, transparency and optional dimensions —
but not the output format — and contains one artifact file per requested
output format, named by the source file's stem with its suffix replaced
by the requested output extension. -/
theorem cache_entry_layout (sha1hex : String → String)
    (srcdir input_relpath in_filename : PyPath) (options : DrawioOptions)
    (x y : Option String) (config : DrawioConfig) (default_output_format : String) :
    hash_key input_relpath { options with format := x } config
      = hash_key input_relpath { options with format := y } config
    ∧ export_dir sha1hex srcdir input_relpath { options with format := x } config
      = export_dir sha1hex srcdir input_relpath { options with format := y } config
    ∧ export_path sha1hex srcdir input_relpath in_filename options config
        default_output_format
      = export_dir sha1hex srcdir input_relpath options config
        ++ [withSuffix (nameStem (pathName in_filename))
             ("." ++ outputFormat options default_output_format)] :=
  ⟨rfl, rfl, rfl⟩

end DrawioSpec
